import Mathlib

/-!
Verification of the Blogger single-page CRUD app (src/BloggerApp.jsx).

The source is a single React component over Firebase.  We embed the pure
content of its handlers as Lean functions:

* component state (the useState hooks) becomes the structure AppState;
* a write payload is a list of (field name, value) pairs, so that which
  fields a network call carries is a provable property;
* the asynchronous outcome of an awaited write is an explicit Boolean
  parameter writeFails: the handler returns the successor state, the list
  of network calls it issued, and what it reported to the user;
* the Firestore snapshot listener becomes applySnapshot, a function of the
  current state and the delivered snapshot.  A pending server timestamp is
  delivered as JavaScript null, which the comparator
  (a, b) => b.timestamp - a.timestamp coerces to 0, so the numeric sort
  key of an unresolved timestamp is 0;
* JavaScript Array.prototype.sort with a consistent comparator is required
  (ES2019) to be a stable sort, and the stable sorted permutation is
  unique, so we model it with a stable insertion sort.
-/

namespace Blogger

/-- A field value in a Firestore write payload: a string, a number, or the
server-timestamp sentinel produced by serverTimestamp(). -/
inductive FieldValue where
  | str (s : String)
  | num (n : Int)
  | serverTimestampSentinel
deriving DecidableEq, Repr

/-- A write payload: the (field name, value) pairs of the object literal
passed to addDoc or updateDoc. -/
abbrev Fields := List (String × FieldValue)

/-- The object literal built at src/BloggerApp.jsx:130-135:
{ title, description, author, timestamp: serverTimestamp() }. -/
def blogData (title description author : String) : Fields :=
  [("title", .str title),
   ("description", .str description),
   ("author", .str author),
   ("timestamp", .serverTimestampSentinel)]

/-- A network call issued against the remote store. -/
inductive NetCall where
  | create (path : List String) (fields : Fields)
  | update (path : List String) (fields : Fields)
  | deleteDoc (path : List String)
deriving DecidableEq, Repr

/-- The draft form state: the title, description, author and editingId
useState hooks (src lines 39-42). -/
structure Draft where
  title : String
  description : String
  author : String
  editingId : Option String
deriving DecidableEq, Repr

/-- The initial and reset value of the draft: all three text fields empty
and editingId null. -/
def emptyDraft : Draft := ⟨"", "", "", none⟩

/-- A post as held in the blogs list: doc.id spread together with the
document data (src lines 103-106).  timestamp = none models a pending
server timestamp, which the snapshot delivers as null. -/
structure Post where
  id : String
  title : String
  description : String
  author : String
  timestamp : Option Int
deriving DecidableEq, Repr

/-- A document of a delivered snapshot, before the id spread. -/
structure SnapshotDoc where
  id : String
  title : String
  description : String
  author : String
  timestamp : Option Int
deriving DecidableEq, Repr

/-- The component state relevant to the handlers: blogs, the draft fields,
loading, userId, and whether the db handle is set (src lines 38-46). -/
structure AppState where
  blogs : List Post
  draft : Draft
  loading : Bool
  userId : Option String
  dbReady : Bool
deriving DecidableEq, Repr

/-- The initial component state: blogs = [], empty draft, loading = true,
userId = null, db = null. -/
def initState : AppState :=
  { blogs := [], draft := emptyDraft, loading := true,
    userId := none, dbReady := false }

/-- The collection path built by collection(db, 'artifacts', appId,
'users', userId, 'blog_posts') for the snapshot subscription
(src lines 93-100). -/
def subscriptionPath (appId userId : String) : List String :=
  ["artifacts", appId, "users", userId, "blog_posts"]

/-- The numeric sort key of a timestamp as used by the comparator
(a, b) => b.timestamp - a.timestamp: JavaScript null coerces to 0. -/
def tsNum : Option Int → Int
  | none => 0
  | some t => t

/-- Stable insertion of a post into a list kept in non-increasing key
order: the post moves past exactly the entries with strictly larger key,
so among equal keys the earlier element stays first. -/
def insertPost (p : Post) : List Post → List Post
  | [] => [p]
  | q :: qs =>
    if tsNum p.timestamp < tsNum q.timestamp then q :: insertPost p qs
    else p :: q :: qs

/-- The stable descending-by-key sort performed by
blogsData.sort((a, b) => b.timestamp - a.timestamp) (src line 108). -/
def sortBlogs : List Post → List Post
  | [] => []
  | p :: ps => insertPost p (sortBlogs ps)

/-- The id spread of src lines 103-106: { id: doc.id, ...doc.data() }. -/
def docToPost (d : SnapshotDoc) : Post :=
  ⟨d.id, d.title, d.description, d.author, d.timestamp⟩

/-- The snapshot callback (src lines 102-110): map the docs, sort them
descending by the numeric key, replace blogs, clear loading. -/
def applySnapshot (s : AppState) (snap : List SnapshotDoc) : AppState :=
  { s with blogs := sortBlogs (snap.map docToPost), loading := false }

/-- The snapshot error callback (src lines 111-113): it only logs
"Failed to fetch blogs:"; it touches no state. -/
def onSnapshotError (s : AppState) : AppState × List String :=
  (s, ["Failed to fetch blogs:"])

/-- What handleSubmit reported to the user. -/
inductive SubmitResult where
  | validationAlert
  | success
  | writeErrorLogged
deriving DecidableEq, Repr

/-- The outcome of a handler: the successor state, the network calls it
issued, and what it reported. -/
structure SubmitOutcome where
  state : AppState
  calls : List NetCall
  result : SubmitResult
deriving DecidableEq, Repr

/-- handleSubmit (src lines 123-155).  The guard
!title || !description || !author || !db || !userId alerts and returns;
we match userId first to bind the uid, which is extensionally the same
disjunction.  Otherwise blogData is built and, depending on editingId,
one updateDoc or one addDoc is awaited; on success resetForm runs, on
failure the error is logged and the state is untouched. -/
def handleSubmit (appId : String) (s : AppState) (writeFails : Bool) :
    SubmitOutcome :=
  match s.userId with
  | none => ⟨s, [], .validationAlert⟩
  | some uid =>
    if s.draft.title = "" ∨ s.draft.description = "" ∨ s.draft.author = "" ∨
        s.dbReady = false then
      ⟨s, [], .validationAlert⟩
    else
      let data := blogData s.draft.title s.draft.description s.draft.author
      let call : NetCall :=
        match s.draft.editingId with
        | some eid =>
          .update ["artifacts", appId, "users", uid, "blog_posts", eid] data
        | none =>
          .create ["artifacts", appId, "users", uid, "blog_posts"] data
      if writeFails then ⟨s, [call], .writeErrorLogged⟩
      else ⟨{ s with draft := emptyDraft }, [call], .success⟩

/-- handleEdit (src lines 158-163): copy the three text fields and the id
of the chosen post into the draft. -/
def handleEdit (s : AppState) (blog : Post) : AppState :=
  { s with draft := ⟨blog.title, blog.description, blog.author, some blog.id⟩ }

/-- resetForm (src lines 178-183): clear the three text fields and
editingId. -/
def resetForm (s : AppState) : AppState :=
  { s with draft := emptyDraft }

/-- The outcome of handleDelete: successor state, issued calls, and
whether an error was logged. -/
structure DeleteOutcome where
  state : AppState
  calls : List NetCall
  errorLogged : Bool
deriving DecidableEq, Repr

/-- handleDelete (src lines 166-175): if (!db || !userId) return; else one
deleteDoc is awaited and a failure is logged.  No state is written. -/
def handleDelete (appId : String) (s : AppState) (id : String)
    (writeFails : Bool) : DeleteOutcome :=
  match s.userId with
  | none => ⟨s, [], false⟩
  | some uid =>
    if s.dbReady = false then ⟨s, [], false⟩
    else
      ⟨s, [.deleteDoc ["artifacts", appId, "users", uid, "blog_posts", id]],
       writeFails⟩

/-- The runtime value of a timestamp field as formatDate receives it. -/
inductive TimestampValue where
  | nullValue
  | firestoreTimestamp (seconds : Int)
  | jsNumber (ms : Int)
deriving DecidableEq, Repr

/-- What formatDate renders. -/
inductive Rendered where
  | na
  | localeString (t : Int)
deriving DecidableEq, Repr

/-- formatDate (src lines 186-194): a falsy value (null, or the number 0)
renders as N/A; a Firestore Timestamp (has toDate) renders
toDate().toLocaleString(); any other number renders
new Date(n).toLocaleString(). -/
def formatDate : TimestampValue → Rendered
  | .nullValue => .na
  | .firestoreTimestamp t => .localeString t
  | .jsNumber n => if n = 0 then .na else .localeString n

end Blogger

namespace Blogger

/-! Helper lemmas about the stable sort. -/

/-- Inserting keeps the multiset of elements. -/
theorem insertPost_perm (p : Post) (l : List Post) :
    (insertPost p l).Perm (p :: l) := by
  induction l with
  | nil => simp [insertPost]
  | cons q qs ih =>
    by_cases h : tsNum p.timestamp < tsNum q.timestamp
    · simpa [insertPost, h] using
        ((ih.cons q).trans (List.Perm.swap p q qs))
    · simp [insertPost, h]

/-- The sort keeps the multiset of elements. -/
theorem sortBlogs_perm (l : List Post) : (sortBlogs l).Perm l := by
  induction l with
  | nil => simp [sortBlogs]
  | cons p ps ih =>
    exact (insertPost_perm p (sortBlogs ps)).trans (ih.cons p)

/-- Inserting into a non-increasing list keeps it non-increasing. -/
theorem insertPost_pairwise (p : Post) (l : List Post)
    (h : l.Pairwise (fun a b => tsNum b.timestamp ≤ tsNum a.timestamp)) :
    (insertPost p l).Pairwise
      (fun a b => tsNum b.timestamp ≤ tsNum a.timestamp) := by
  induction l with
  | nil => simp [insertPost]
  | cons q qs ih =>
    rcases List.pairwise_cons.mp h with ⟨hq, hqs⟩
    by_cases hlt : tsNum p.timestamp < tsNum q.timestamp
    · rw [insertPost, if_pos hlt]
      refine List.pairwise_cons.mpr ⟨?_, ih hqs⟩
      intro b hb
      have hb' := (insertPost_perm p qs).mem_iff.mp hb
      rcases List.mem_cons.mp hb' with rfl | hbq
      · exact le_of_lt hlt
      · exact hq b hbq
    · rw [insertPost, if_neg hlt]
      push_neg at hlt
      refine List.pairwise_cons.mpr ⟨?_, h⟩
      intro b hb
      rcases List.mem_cons.mp hb with rfl | hbq
      · exact hlt
      · exact le_trans (hq b hbq) hlt

/-- The sorted list is non-increasing in the numeric key. -/
theorem sortBlogs_pairwise (l : List Post) :
    (sortBlogs l).Pairwise
      (fun a b => tsNum b.timestamp ≤ tsNum a.timestamp) := by
  induction l with
  | nil => simp [sortBlogs]
  | cons p ps ih => exact insertPost_pairwise p (sortBlogs ps) ih

/-- The visible list as claim C2 words it: the unresolved-timestamp
entries first, then the resolved ones in descending timestamp order.
Written from the claim text, to be compared with the code. -/
def claimedVisibleList (snap : List SnapshotDoc) : List Post :=
  let ps := snap.map docToPost
  ps.filter (fun p => p.timestamp.isNone) ++
    sortBlogs (ps.filter (fun p => p.timestamp.isSome))

end Blogger

namespace Blogger

/-! Concrete fixtures used by counterexamples and witnesses. -/

/-- A state authenticated as u1 with the db handle set and an empty
draft. -/
def authState : AppState :=
  { blogs := [], draft := emptyDraft, loading := false,
    userId := some "u1", dbReady := true }

/-- authState with a fully filled draft in editing mode for post p1. -/
def editState : AppState :=
  { authState with draft := ⟨"Hello2", "World2", "Ada", some "p1"⟩ }

/-- authState with a fully filled draft in creating mode. -/
def createState : AppState :=
  { authState with draft := ⟨"Hello", "World", "Ada", none⟩ }

/-- A snapshot document whose server timestamp has resolved to 5. -/
def docResolved : SnapshotDoc := ⟨"p1", "Hello", "World", "Ada", some 5⟩

/-- A snapshot document whose server timestamp is still pending
(delivered as null). -/
def docPending : SnapshotDoc := ⟨"p2", "New", "Post", "Ada", none⟩

end Blogger

namespace Blogger

/-- C1 counterexample: submitting in editing mode issues an update call
whose payload contains the timestamp field (the serverTimestamp
sentinel), contradicting that the update carries only the three text
fields and not the timestamp. -/
theorem c1_update_payload_contains_timestamp :
    (handleSubmit "app1" editState false).calls =
      [NetCall.update ["artifacts", "app1", "users", "u1", "blog_posts", "p1"]
        (blogData "Hello2" "World2" "Ada")] ∧
    ("timestamp", FieldValue.serverTimestampSentinel) ∈
      blogData "Hello2" "World2" "Ada" := by
  constructor
  · rfl
  · decide

/-- C1 amended: a submit with editingId set, all three text fields
non-empty, the user authenticated and the db set, issues exactly one
update call against that id whose payload has exactly the fields title,
description, author and timestamp (a server-timestamp request) and no id
field, and on success resets the draft to all-empty with
editingId = none. -/
theorem c1_update_call_fields_and_reset (appId uid t d a pid : String)
    (s : AppState)
    (hu : s.userId = some uid)
    (hdraft : s.draft = ⟨t, d, a, some pid⟩)
    (ht : t ≠ "") (hd : d ≠ "") (ha : a ≠ "")
    (hdb : s.dbReady = true) :
    (handleSubmit appId s false).calls =
      [NetCall.update ["artifacts", appId, "users", uid, "blog_posts", pid]
        (blogData t d a)] ∧
    (blogData t d a).map Prod.fst =
      ["title", "description", "author", "timestamp"] ∧
    (handleSubmit appId s false).state.draft = emptyDraft := by
  simp [handleSubmit, hu, hdraft, ht, hd, ha, hdb, blogData]

/-- C1 amended witness at a concrete editing state. -/
theorem c1_update_call_fields_and_reset_witness :
    (handleSubmit "app1" editState false).calls =
      [NetCall.update ["artifacts", "app1", "users", "u1", "blog_posts", "p1"]
        (blogData "Hello2" "World2" "Ada")] ∧
    (blogData "Hello2" "World2" "Ada").map Prod.fst =
      ["title", "description", "author", "timestamp"] ∧
    (handleSubmit "app1" editState false).state.draft = emptyDraft :=
  c1_update_call_fields_and_reset "app1" "u1" "Hello2" "World2" "Ada" "p1"
    editState rfl rfl (by decide) (by decide) (by decide) rfl

/-- C2 counterexample: on the snapshot [resolved ts 5, pending], the code
sorts the pending entry last (its null timestamp coerces to sort key 0),
while the claim places unresolved entries first. -/
theorem c2_pending_sorts_last_not_first :
    (applySnapshot initState [docResolved, docPending]).blogs ≠
      claimedVisibleList [docResolved, docPending] := by
  decide

/-- C2 amended: the visible list is exactly the documents of the latest
snapshot ordered by non-increasing numeric sort key, where an unresolved
timestamp has key 0 and therefore sorts below positive resolved
timestamps rather than first; delivering the same snapshot twice produces
no visible change. -/
theorem c2_snapshot_sorted_descending_idempotent (s : AppState)
    (snap : List SnapshotDoc) :
    (applySnapshot s snap).blogs.Perm (snap.map docToPost) ∧
    (applySnapshot s snap).blogs.Pairwise
      (fun a b => tsNum b.timestamp ≤ tsNum a.timestamp) ∧
    applySnapshot (applySnapshot s snap) snap = applySnapshot s snap := by
  refine ⟨sortBlogs_perm _, sortBlogs_pairwise _, rfl⟩

/-- C3 counterexample: at a state still loading, the subscription error
callback leaves loading = true; it does not clear the loading flag. -/
theorem c3_error_does_not_clear_loading :
    (onSnapshotError initState).1.loading = true ∧
    initState.loading = true := by
  constructor <;> rfl

/-- C3 amended: a subscription error logs "Failed to fetch blogs:" and
leaves the whole state unchanged: the post list keeps its last known
value, and the loading flag keeps its prior value instead of being
cleared. -/
theorem c3_error_logs_and_preserves_state (s : AppState) :
    (onSnapshotError s).1 = s ∧
    (onSnapshotError s).2 = ["Failed to fetch blogs:"] :=
  ⟨rfl, rfl⟩

/-- C4: with all three text fields non-empty, editingId = none, an
authenticated user and the db set, submit issues exactly one create call
and nothing else, and when the write is accepted the draft resets to
all-empty with editingId = none. -/
theorem c4_create_exactly_one_call_and_reset (appId uid t d a : String)
    (s : AppState) (writeFails : Bool)
    (hu : s.userId = some uid)
    (hdraft : s.draft = ⟨t, d, a, none⟩)
    (ht : t ≠ "") (hd : d ≠ "") (ha : a ≠ "")
    (hdb : s.dbReady = true) :
    (handleSubmit appId s writeFails).calls =
      [NetCall.create ["artifacts", appId, "users", uid, "blog_posts"]
        (blogData t d a)] ∧
    (writeFails = false →
      (handleSubmit appId s writeFails).state.draft = emptyDraft) := by
  cases writeFails <;>
    simp [handleSubmit, hu, hdraft, ht, hd, ha, hdb]

/-- C4 witness at a concrete creating state. -/
theorem c4_create_exactly_one_call_and_reset_witness :
    (handleSubmit "app1" createState false).calls =
      [NetCall.create ["artifacts", "app1", "users", "u1", "blog_posts"]
        (blogData "Hello" "World" "Ada")] ∧
    (false = false →
      (handleSubmit "app1" createState false).state.draft = emptyDraft) :=
  c4_create_exactly_one_call_and_reset "app1" "u1" "Hello" "World" "Ada"
    createState false rfl rfl (by decide) (by decide) (by decide) rfl

/-- C5: when any of title, description, author is empty, or no
authenticated user id is available, submit issues zero network calls,
alerts the user, and leaves the state unchanged. -/
theorem c5_validation_blocks_all_calls (appId : String) (s : AppState)
    (writeFails : Bool)
    (h : s.draft.title = "" ∨ s.draft.description = "" ∨
      s.draft.author = "" ∨ s.userId = none) :
    (handleSubmit appId s writeFails).calls = [] ∧
    (handleSubmit appId s writeFails).result = SubmitResult.validationAlert ∧
    (handleSubmit appId s writeFails).state = s := by
  cases hu : s.userId with
  | none => simp [handleSubmit, hu]
  | some uid =>
    rcases h with h | h | h | h
    · simp [handleSubmit, hu, h]
    · simp [handleSubmit, hu, h]
    · simp [handleSubmit, hu, h]
    · exact absurd (hu ▸ h) (by simp)

/-- C5 witness: an authenticated state whose draft has an empty title. -/
theorem c5_validation_blocks_all_calls_witness :
    ((authState.draft.title = "" ∨ authState.draft.description = "" ∨
        authState.draft.author = "" ∨ authState.userId = none) ∧
      (handleSubmit "app1" authState false).calls = [] ∧
      (handleSubmit "app1" authState false).result =
        SubmitResult.validationAlert ∧
      (handleSubmit "app1" authState false).state = authState) :=
  ⟨Or.inl rfl,
    c5_validation_blocks_all_calls "app1" authState false (Or.inl rfl)⟩

/-- C6: when the awaited create or update call fails, the error is
reported and the whole state, the draft included, is exactly as before
the submit. -/
theorem c6_failed_write_preserves_draft (appId : String) (s : AppState) :
    (handleSubmit appId s true).state = s ∧
    (handleSubmit appId s true).state.draft = s.draft ∧
    ((handleSubmit appId s true).calls ≠ [] →
      (handleSubmit appId s true).result = SubmitResult.writeErrorLogged) := by
  cases hu : s.userId with
  | none => simp [handleSubmit, hu]
  | some uid =>
    by_cases hg : s.draft.title = "" ∨ s.draft.description = "" ∨
        s.draft.author = "" ∨ s.dbReady = false
    · simp [handleSubmit, hu, hg]
    · cases he : s.draft.editingId <;> simp [handleSubmit, hu, hg, he]

/-- C6 witness at a concrete editing state whose write fails. -/
theorem c6_failed_write_preserves_draft_witness :
    (handleSubmit "app1" editState true).state = editState ∧
    (handleSubmit "app1" editState true).state.draft = editState.draft ∧
    ((handleSubmit "app1" editState true).calls ≠ [] →
      (handleSubmit "app1" editState true).result =
        SubmitResult.writeErrorLogged) :=
  c6_failed_write_preserves_draft "app1" editState

/-- C7: startEdit on any post followed immediately by cancel leaves the
draft all-empty with editingId = none. -/
theorem c7_edit_then_cancel_resets (s : AppState) (blog : Post) :
    (resetForm (handleEdit s blog)).draft = emptyDraft :=
  rfl

/-- C8: the subscription and every create issued by submit are scoped to
artifacts/appId/users/userId/blog_posts; concretely, for user u1 under
app app1 the path is artifacts/app1/users/u1/blog_posts. -/
theorem c8_paths_scoped_to_user (appId uid t d a : String) (s : AppState)
    (hu : s.userId = some uid)
    (hdraft : s.draft = ⟨t, d, a, none⟩)
    (ht : t ≠ "") (hd : d ≠ "") (ha : a ≠ "")
    (hdb : s.dbReady = true) :
    subscriptionPath appId uid =
      ["artifacts", appId, "users", uid, "blog_posts"] ∧
    (handleSubmit appId s false).calls =
      [NetCall.create (subscriptionPath appId uid) (blogData t d a)] ∧
    String.intercalate "/" (subscriptionPath "app1" "u1") =
      "artifacts/app1/users/u1/blog_posts" := by
  refine ⟨rfl, ?_, by decide⟩
  simp [handleSubmit, hu, hdraft, ht, hd, ha, hdb, subscriptionPath]

/-- C8 witness at the concrete creating state of user u1 under app1. -/
theorem c8_paths_scoped_to_user_witness :
    subscriptionPath "app1" "u1" =
      ["artifacts", "app1", "users", "u1", "blog_posts"] ∧
    (handleSubmit "app1" createState false).calls =
      [NetCall.create (subscriptionPath "app1" "u1")
        (blogData "Hello" "World" "Ada")] ∧
    String.intercalate "/" (subscriptionPath "app1" "u1") =
      "artifacts/app1/users/u1/blog_posts" :=
  c8_paths_scoped_to_user "app1" "u1" "Hello" "World" "Ada" createState
    rfl rfl (by decide) (by decide) (by decide) rfl

/-- C9: a resolved server timestamp renders as a locale date string, but a
still-pending write renders as the string N/A, not as a local wall-clock
value captured at submission: the snapshot delivers the pending timestamp
as null, formatDate maps null to N/A, and the submit payload stores only
the server-timestamp sentinel, never a local numeric time. -/
theorem c9_pending_renders_na :
    formatDate (TimestampValue.firestoreTimestamp 5) =
      Rendered.localeString 5 ∧
    formatDate TimestampValue.nullValue = Rendered.na ∧
    ("timestamp", FieldValue.serverTimestampSentinel) ∈
      blogData "Hello" "World" "Ada" ∧
    (∀ n : Int, ("timestamp", FieldValue.num n) ∉
      blogData "Hello" "World" "Ada") := by
  refine ⟨rfl, rfl, by decide, ?_⟩
  intro n
  simp [blogData]

/-- C10: delete while no authenticated user id is available (or before the
db handle is set) issues no network call, logs no error, and leaves the
state unchanged. -/
theorem c10_delete_unauthenticated_noop (appId id : String) (s : AppState)
    (writeFails : Bool)
    (h : s.userId = none ∨ s.dbReady = false) :
    handleDelete appId s id writeFails = ⟨s, [], false⟩ := by
  cases hu : s.userId with
  | none => simp [handleDelete, hu]
  | some uid =>
    rcases h with h | h
    · exact absurd (hu ▸ h) (by simp)
    · simp [handleDelete, hu, h]

/-- C10 witness at the initial state, which has no user id and no db. -/
theorem c10_delete_unauthenticated_noop_witness :
    (initState.userId = none ∨ initState.dbReady = false) ∧
    handleDelete "app1" initState "p1" true = ⟨initState, [], false⟩ :=
  ⟨Or.inl rfl,
    c10_delete_unauthenticated_noop "app1" "p1" initState true (Or.inl rfl)⟩

end Blogger
